import Mathlib

/-!
Verification of the qr-image-gen server (src/server.js).

The geometry of the logo compositor (lines 43-59 of server.js) is embedded
over the rationals: JavaScript number arithmetic on these inputs is exact
division and multiplication, and `Math.round` is floor of x + 1/2.

The HTTP handler (lines 99-142) is embedded as a pure function from an
environment describing the external world (whether QR encoding succeeds,
the loaded logo's natural dimensions or a load failure, whether the
filesystem write succeeds, the directory of the server source file, the
process working directory, the clock) to the trace of observable events
the handler performs, ending in the HTTP response.
-/

namespace QRGen

/-- JavaScript Math.round: rounds to the nearest integer, halves toward
positive infinity, i.e. floor of q + 1/2. -/
def jsRound (q : ℚ) : ℤ := ⌊q + 1 / 2⌋

/-- Derived placement of the logo on the square raster: origin (x, y) and
the scaled drawing dimensions. -/
structure LogoPlacement where
  x : ℤ
  y : ℤ
  scaledW : ℚ
  scaledH : ℚ
deriving Repr, DecidableEq

/-- Logo rescaling from server.js lines 43-55: two sequential clamps.
`logoWidthFinal` and `logoHeightFinal` start as the natural dimensions;
if the width exceeds width/5 both are rescaled; then, if the (possibly
already rescaled) height exceeds width/5, the height is clamped and the
width recomputed from the original logoWidth/logoHeight. -/
def scaleLogo (width logoWidth logoHeight : ℚ) : ℚ × ℚ :=
  let maxLogoWidth := width / 5
  let maxLogoHeight := width / 5
  let s1 : ℚ × ℚ :=
    if logoWidth > maxLogoWidth then
      (maxLogoWidth, (logoHeight / logoWidth) * maxLogoWidth)
    else
      (logoWidth, logoHeight)
  if s1.2 > maxLogoHeight then
    ((logoWidth / logoHeight) * maxLogoHeight, maxLogoHeight)
  else
    s1

/-- Full compositor geometry from server.js lines 43-59: rescale, then
center, x = round((width - logoWidthFinal) / 2),
y = round((width - logoHeightFinal) / 2). -/
def compositeGeometry (width logoWidth logoHeight : ℚ) : LogoPlacement :=
  let s := scaleLogo width logoWidth logoHeight
  ⟨jsRound ((width - s.1) / 2), jsRound ((width - s.2) / 2), s.1, s.2⟩

/-- Modelled from the spec (section 4.2 steps 3-4, the wording of claim C1):
first clamp sets scaledW = maxW and scaledH = lh * (maxW / lw); second
clamp, tested on the possibly-already-scaled height, sets scaledH = maxH
and recomputes scaledW = lw * (maxH / lh) from the original lw and lh. -/
def specClamp (width lw lh : ℚ) : ℚ × ℚ :=
  let maxW := width / 5
  let maxH := width / 5
  let s1 : ℚ × ℚ :=
    if lw > maxW then (maxW, lh * (maxW / lw)) else (lw, lh)
  if s1.2 > maxH then (lw * (maxH / lh), maxH) else s1

/-- JavaScript value, as far as the handler inspects request fields. -/
inductive JSValue where
  | undefined
  | null
  | bool (b : Bool)
  | num (n : ℚ)
  | str (s : String)
deriving Repr, DecidableEq

/-- JavaScript truthiness of the modelled values: undefined, null, false,
0 and the empty string are falsy. -/
def JSValue.truthy : JSValue → Bool
  | .undefined => false
  | .null => false
  | .bool b => b
  | .num n => decide (n ≠ 0)
  | .str s => decide (s ≠ "")

/-- Options passed to QRCode.toCanvas. -/
structure QROptions where
  errorCorrectionLevel : String
  margin : ℕ
  dark : String
  light : String
deriving Repr, DecidableEq

/-- Observable actions of one request, in the order the handler performs
them. renderQR is an invocation of QRCode.toCanvas, loadLogo of
loadImage, drawLogo of ctx.drawImage; mkdir and write are the filesystem
actions; the respond events are the HTTP response. -/
inductive Event where
  | renderQR (width : ℚ) (data : JSValue) (opts : QROptions)
  | loadLogo (path : String)
  | drawLogo (x y : ℤ) (w h : ℚ)
  | mkdir (dir : String)
  | write (dir file : String)
  | respondPng (bytes : List ℕ)
  | respondJson (status : ℕ) (error : String)
deriving Repr, DecidableEq

/-- External world of one request: whether QRCode.toCanvas succeeds for
this payload, the natural dimensions the logo decodes to (none models a
load failure), whether the filesystem write succeeds, whether the output
directory already exists, the directory holding the server source file
(the __dirname of server.js), the process working directory (never read
by the handler), and the deterministic PNG bytes the canvas encodes to on
each path. -/
structure Env where
  qrEncodeOk : Bool
  logo : Option (ℚ × ℚ)
  writeOk : Bool
  outputDirExists : Bool
  dirname : String
  cwd : String
  encodeWithLogo : JSValue → List ℕ
  encodeNoLogo : JSValue → List ℕ

/-- Logo asset path hard-coded at server.js line 109. -/
def logoPath : String := "./src/images/logo1.jpg"

/-- Error body of the 400 validation response, server.js line 104. -/
def missingDataError : String := "Missing required field: data"

/-- Error body of the 500 response, server.js line 140. -/
def internalError : String := "Failed to generate QR code"

/-- generateQRCodeWithLogo, server.js lines 21-70: render the QR symbol
onto the canvas, load the logo, rescale and center it, draw it, and
return the PNG data. A failure of the QR encoding or of the logo load
aborts the function (the catch block rethrows). -/
def generateQRCodeWithLogo (env : Env) (dataForQRcode : JSValue)
    (center_image : String) (width : ℚ) : List Event × Option (List ℕ) :=
  if env.qrEncodeOk then
    match env.logo with
    | some (lw, lh) =>
        let g := compositeGeometry width lw lh
        ([Event.renderQR width dataForQRcode ⟨"H", 1, "#000000", "#ffffff"⟩,
          Event.loadLogo center_image,
          Event.drawLogo g.x g.y g.scaledW g.scaledH],
         some (env.encodeWithLogo dataForQRcode))
    | none =>
        ([Event.renderQR width dataForQRcode ⟨"H", 1, "#000000", "#ffffff"⟩,
          Event.loadLogo center_image], none)
  else
    ([Event.renderQR width dataForQRcode ⟨"H", 1, "#000000", "#ffffff"⟩], none)

/-- generateQRCodeWithoutLogo, server.js lines 80-93. -/
def generateQRCodeWithoutLogo (env : Env) (data : JSValue)
    (width : ℚ) : List Event × Option (List ℕ) :=
  if env.qrEncodeOk then
    ([Event.renderQR width data ⟨"H", 1, "#000000", "#ffffff"⟩],
     some (env.encodeNoLogo data))
  else
    ([Event.renderQR width data ⟨"H", 1, "#000000", "#ffffff"⟩], none)

/-- Parsed JSON request body; a missing field destructures to undefined. -/
structure RequestBody where
  data : JSValue
  enableLogo : JSValue
deriving Repr, DecidableEq

/-- POST /generate-qr handler, server.js lines 99-142, as the trace of
events it performs. now is the Date.now() reading in unix milliseconds.
enableLogo defaults to true only when the field is undefined (the
destructuring default); any thrown error is caught and answered with the
single 500 response. -/
def handleGenerateQR (env : Env) (now : ℕ) (req : RequestBody) : List Event :=
  let data := req.data
  let enableLogo := if req.enableLogo = JSValue.undefined then JSValue.bool true
                    else req.enableLogo
  if data.truthy = false then
    [Event.respondJson 400 missingDataError]
  else
    let r := if enableLogo.truthy then
        generateQRCodeWithLogo env data logoPath 400
      else
        generateQRCodeWithoutLogo env data 400
    match r.2 with
    | none => r.1 ++ [Event.respondJson 500 internalError]
    | some bytes =>
        let outputDir := env.dirname ++ "/output"
        let mkdirEvents := if env.outputDirExists then ([] : List Event)
                           else [Event.mkdir outputDir]
        let fileName := "qr-code-" ++ toString now ++ ".png"
        if env.writeOk then
          r.1 ++ mkdirEvents ++
            [Event.write outputDir fileName, Event.respondPng bytes]
        else
          r.1 ++ mkdirEvents ++ [Event.respondJson 500 internalError]

/-- Concrete environment used by the witnesses: everything succeeds, the
logo decodes to 200 by 200, the output directory does not exist yet, and
the server source sits in /srv/app/src while the process runs in
/srv/app. -/
def sampleEnv : Env :=
  ⟨true, some (200, 200), true, false, "/srv/app/src", "/srv/app",
   fun _ => [137, 80, 78, 71], fun _ => [137, 80, 78, 71]⟩

/-- Filename scrubbing: erases the one place the clock reading can reach,
the name of the written file. -/
def scrubFileName : Event → Event
  | Event.write dir _ => Event.write dir ("")
  | e => e

end QRGen

namespace QRGen

/-- C1: the code's scaling procedure is exactly the spec's two sequential
independent clamps (the second pass recomputing the width from the
original dimensions), and on a 200 by 200 logo with raster width 400 it
yields scaledW = scaledH = 80 placed at x = y = 160. -/
theorem scaleLogo_is_sequential_clamps :
    (∀ width lw lh : ℚ, scaleLogo width lw lh = specClamp width lw lh) ∧
    compositeGeometry 400 200 200 = ⟨160, 160, 80, 80⟩ := by
  constructor
  · intro width lw lh
    unfold scaleLogo specClamp
    have h1 : (lh / lw) * (width / 5) = lh * (width / 5 / lw) := by ring
    have h2 : (lw / lh) * (width / 5) = lw * (width / 5 / lh) := by ring
    simp only [h1, h2]
  · norm_num [compositeGeometry, scaleLogo, jsRound]

/-- C3: the placement origin is always the centered position
x = round((width - scaledW) / 2), y = round((width - scaledH) / 2)
computed from the clamped dimensions. -/
theorem compositeGeometry_centered (width lw lh : ℚ) :
    (compositeGeometry width lw lh).x =
      jsRound ((width - (compositeGeometry width lw lh).scaledW) / 2) ∧
    (compositeGeometry width lw lh).y =
      jsRound ((width - (compositeGeometry width lw lh).scaledH) / 2) := by
  unfold compositeGeometry
  exact ⟨rfl, rfl⟩

/-- C10: a logo already within the one-fifth bound in both dimensions is
drawn at exactly its natural size; the compositor never upscales. -/
theorem scaleLogo_no_upscale (width lw lh : ℚ)
    (hw : lw ≤ width / 5) (hh : lh ≤ width / 5) :
    (compositeGeometry width lw lh).scaledW = lw ∧
    (compositeGeometry width lw lh).scaledH = lh := by
  unfold compositeGeometry scaleLogo
  dsimp only
  split_ifs with h1 h2 h2 <;>
    first
      | exact ⟨rfl, rfl⟩
      | exact absurd h1 (not_lt.mpr hw)
      | exact absurd h2 (not_lt.mpr hh)

/-- Witness for C10 at width 400 with a 50 by 60 logo. -/
theorem scaleLogo_no_upscale_witness :
    (compositeGeometry 400 50 60).scaledW = 50 ∧
    (compositeGeometry 400 50 60).scaledH = 60 :=
  scaleLogo_no_upscale 400 50 60 (by norm_num) (by norm_num)

/-- Bounds of the rescaled dimensions: both stay positive, both stay at or
below one fifth of the raster width, and their quotient is the original
quotient of the natural dimensions. -/
lemma scaleLogo_bounds (width lw lh : ℚ)
    (hw : 0 < width) (hlw : 0 < lw) (hlh : 0 < lh) :
    0 < (scaleLogo width lw lh).1 ∧ (scaleLogo width lw lh).1 ≤ width / 5 ∧
    0 < (scaleLogo width lw lh).2 ∧ (scaleLogo width lw lh).2 ≤ width / 5 ∧
    (scaleLogo width lw lh).1 / (scaleLogo width lw lh).2 = lw / lh := by
  have hm : (0:ℚ) < width / 5 := by positivity
  unfold scaleLogo
  dsimp only
  split_ifs with h1 h2 h2 <;> dsimp only at h2 ⊢
  · -- width clamp fired, then height clamp fired
    have hlt : lw < lh := by
      rw [gt_iff_lt, div_mul_eq_mul_div, lt_div_iff₀ hlw] at h2
      nlinarith
    refine ⟨by positivity, ?_, hm, le_refl _, ?_⟩
    · rw [div_mul_eq_mul_div, div_le_iff₀ hlh]
      nlinarith
    · exact mul_div_cancel_right₀ _ hm.ne'
  · -- width clamp fired, height already small enough
    rw [gt_iff_lt, not_lt] at h2
    refine ⟨hm, le_refl _, by positivity, h2, ?_⟩
    field_simp
    ring
  · -- width small enough, height clamp fired
    rw [gt_iff_lt, not_lt] at h1
    have hlt : lw < lh := lt_of_le_of_lt h1 h2
    refine ⟨by positivity, ?_, hm, le_refl _, ?_⟩
    · rw [div_mul_eq_mul_div, div_le_iff₀ hlh]
      nlinarith
    · exact mul_div_cancel_right₀ _ hm.ne'
  · -- neither clamp fired
    rw [gt_iff_lt, not_lt] at h1 h2
    exact ⟨hlw, h1, hlh, h2, rfl⟩

/-- Centering a dimension that is at most one fifth of the raster width
with the rounded midpoint keeps it inside the raster. -/
lemma centered_fits (width w : ℚ)
    (hpos : 0 < w) (hle : w ≤ width / 5) :
    0 ≤ jsRound ((width - w) / 2) ∧
    (jsRound ((width - w) / 2) : ℚ) + w ≤ width := by
  unfold jsRound
  have hfl : ((⌊(width - w) / 2 + 1 / 2⌋ : ℤ) : ℚ) ≤ (width - w) / 2 + 1 / 2 :=
    Int.floor_le _
  constructor
  · exact Int.floor_nonneg.mpr (by linarith)
  · rcases le_or_lt ⌊(width - w) / 2 + 1 / 2⌋ 0 with h | h
    · have hc : ((⌊(width - w) / 2 + 1 / 2⌋ : ℤ) : ℚ) ≤ 0 := by exact_mod_cast h
      linarith
    · have h1 : ((1 : ℤ) : ℚ) ≤ ((⌊(width - w) / 2 + 1 / 2⌋ : ℤ) : ℚ) := by
        exact_mod_cast h
      linarith

/-- C2: for positive natural dimensions and positive raster width, the
placement keeps the logo fully inside the raster, preserves the original
aspect proportion, and the scaled dimensions never exceed width / 5. -/
theorem compositeGeometry_invariant (width lw lh : ℚ)
    (hw : 0 < width) (hlw : 0 < lw) (hlh : 0 < lh) :
    0 ≤ (compositeGeometry width lw lh).x ∧
    0 ≤ (compositeGeometry width lw lh).y ∧
    ((compositeGeometry width lw lh).x : ℚ) +
      (compositeGeometry width lw lh).scaledW ≤ width ∧
    ((compositeGeometry width lw lh).y : ℚ) +
      (compositeGeometry width lw lh).scaledH ≤ width ∧
    (compositeGeometry width lw lh).scaledW /
      (compositeGeometry width lw lh).scaledH = lw / lh ∧
    (compositeGeometry width lw lh).scaledW ≤ width / 5 ∧
    (compositeGeometry width lw lh).scaledH ≤ width / 5 := by
  obtain ⟨hp1, hb1, hp2, hb2, hr⟩ := scaleLogo_bounds width lw lh hw hlw hlh
  have hx := centered_fits width (scaleLogo width lw lh).1 hp1 hb1
  have hy := centered_fits width (scaleLogo width lw lh).2 hp2 hb2
  unfold compositeGeometry
  dsimp only
  exact ⟨hx.1, hy.1, hx.2, hy.2, hr, hb1, hb2⟩

/-- Witness for C2 at raster width 400 with a 300 by 500 logo. -/
theorem compositeGeometry_invariant_witness :
    (0:ℚ) < 400 ∧ (0:ℚ) < 300 ∧ (0:ℚ) < 500 ∧
    (0 ≤ (compositeGeometry 400 300 500).x ∧
     0 ≤ (compositeGeometry 400 300 500).y ∧
     ((compositeGeometry 400 300 500).x : ℚ) +
       (compositeGeometry 400 300 500).scaledW ≤ 400 ∧
     ((compositeGeometry 400 300 500).y : ℚ) +
       (compositeGeometry 400 300 500).scaledH ≤ 400 ∧
     (compositeGeometry 400 300 500).scaledW /
       (compositeGeometry 400 300 500).scaledH = 300 / 500 ∧
     (compositeGeometry 400 300 500).scaledW ≤ 400 / 5 ∧
     (compositeGeometry 400 300 500).scaledH ≤ 400 / 5) :=
  ⟨by norm_num, by norm_num, by norm_num,
   compositeGeometry_invariant 400 300 500 (by norm_num) (by norm_num) (by norm_num)⟩

/-- C4: a request body whose data field is absent (destructures to
undefined) is answered with exactly the 400 response carrying the
missing-field error body, and the trace holds nothing else: no QR
rendering, no logo load or draw, no directory creation, no file write. -/
theorem missing_data_rejected (env : Env) (now : ℕ) (el : JSValue) :
    handleGenerateQR env now ⟨JSValue.undefined, el⟩ =
      [Event.respondJson 400 missingDataError] := rfl

/-- C9: a present but falsy data value is treated exactly like a missing
field: the handler produces the identical trace, namely the single 400
missing-field response, and never reaches the QR encoder. -/
theorem falsy_data_like_missing (env : Env) (now : ℕ) (v el : JSValue)
    (h : v.truthy = false) :
    handleGenerateQR env now ⟨v, el⟩ =
      handleGenerateQR env now ⟨JSValue.undefined, el⟩ ∧
    handleGenerateQR env now ⟨v, el⟩ =
      [Event.respondJson 400 missingDataError] := by
  constructor <;>
    simp [handleGenerateQR, h, show JSValue.undefined.truthy = false from rfl]

/-- Witness for C9: the empty string, the number 0 and the boolean false
are all falsy and each is answered like a missing field. -/
theorem falsy_data_like_missing_witness :
    ((JSValue.str ("")).truthy = false ∧
      handleGenerateQR sampleEnv 0 ⟨JSValue.str (""), JSValue.undefined⟩ =
        [Event.respondJson 400 missingDataError]) ∧
    ((JSValue.num 0).truthy = false ∧
      handleGenerateQR sampleEnv 0 ⟨JSValue.num 0, JSValue.undefined⟩ =
        [Event.respondJson 400 missingDataError]) ∧
    ((JSValue.bool false).truthy = false ∧
      handleGenerateQR sampleEnv 0 ⟨JSValue.bool false, JSValue.undefined⟩ =
        [Event.respondJson 400 missingDataError]) :=
  ⟨⟨by decide,
    (falsy_data_like_missing sampleEnv 0 (JSValue.str ("")) JSValue.undefined
      (by decide)).2⟩,
   ⟨by decide,
    (falsy_data_like_missing sampleEnv 0 (JSValue.num 0) JSValue.undefined
      (by decide)).2⟩,
   ⟨by decide,
    (falsy_data_like_missing sampleEnv 0 (JSValue.bool false) JSValue.undefined
      (by decide)).2⟩⟩

/-- C5: non-validation failures all collapse to the single 500 response
with the fixed error body. A QR encoding failure ends the request with
just the render attempt and the 500 response; a logo load failure ends it
with the render attempt, the load attempt and the 500 response, with no
fallback call of the logo-less path, no write and no retry; and whenever
the filesystem write fails the request also ends with that same 500
body. -/
theorem failures_collapse_to_500 (env : Env) (now : ℕ) (req : RequestBody)
    (hd : req.data.truthy = true) :
    (env.qrEncodeOk = false →
      handleGenerateQR env now req =
        [Event.renderQR 400 req.data ⟨"H", 1, "#000000", "#ffffff"⟩,
         Event.respondJson 500 internalError]) ∧
    ((if req.enableLogo = JSValue.undefined then JSValue.bool true
        else req.enableLogo).truthy = true →
      env.qrEncodeOk = true → env.logo = none →
      handleGenerateQR env now req =
        [Event.renderQR 400 req.data ⟨"H", 1, "#000000", "#ffffff"⟩,
         Event.loadLogo logoPath,
         Event.respondJson 500 internalError]) ∧
    (env.writeOk = false →
      ∃ pre, handleGenerateQR env now req =
        pre ++ [Event.respondJson 500 internalError]) := by
  refine ⟨?_, ?_, ?_⟩
  · intro hq
    rcases he : (if req.enableLogo = JSValue.undefined then JSValue.bool true
        else req.enableLogo).truthy <;>
      simp [handleGenerateQR, generateQRCodeWithLogo, generateQRCodeWithoutLogo,
        hd, hq, he]
  · intro he hq hl
    simp [handleGenerateQR, generateQRCodeWithLogo, hd, he, hq, hl]
  · intro hwk
    unfold handleGenerateQR
    dsimp only
    rw [hd]
    simp only [Bool.true_eq_false, if_false]
    rcases h2 : (if (if req.enableLogo = JSValue.undefined then JSValue.bool true
        else req.enableLogo).truthy = true then
          generateQRCodeWithLogo env req.data logoPath 400
        else generateQRCodeWithoutLogo env req.data 400).2 with _ | bytes
    · exact ⟨_, rfl⟩
    · rw [hwk]
      simp only [Bool.false_eq_true, if_false]
      exact ⟨_ ++ (if env.outputDirExists then ([] : List Event)
          else [Event.mkdir (env.dirname ++ "/output")]),
        by rw [List.append_assoc]⟩

/-- Witness for C5: a logo decode failure, a QR encoding failure and a
filesystem write failure each end in the 500 response with the fixed
body, exercised on three concrete environments. -/
theorem failures_collapse_to_500_witness :
    ((JSValue.str ("hi")).truthy = true ∧
     handleGenerateQR ⟨true, none, true, false, "/srv/app/src", "/srv/app",
        fun _ => [], fun _ => []⟩ 0 ⟨JSValue.str ("hi"), JSValue.undefined⟩ =
      [Event.renderQR 400 (JSValue.str ("hi")) ⟨"H", 1, "#000000", "#ffffff"⟩,
       Event.loadLogo logoPath,
       Event.respondJson 500 internalError]) ∧
    handleGenerateQR ⟨false, some (200, 200), true, false, "/srv/app/src",
        "/srv/app", fun _ => [], fun _ => []⟩ 0
        ⟨JSValue.str ("hi"), JSValue.undefined⟩ =
      [Event.renderQR 400 (JSValue.str ("hi")) ⟨"H", 1, "#000000", "#ffffff"⟩,
       Event.respondJson 500 internalError] ∧
    ∃ pre, handleGenerateQR ⟨true, some (200, 200), false, false,
        "/srv/app/src", "/srv/app", fun _ => [], fun _ => []⟩ 0
        ⟨JSValue.str ("hi"), JSValue.undefined⟩ =
      pre ++ [Event.respondJson 500 internalError] :=
  ⟨⟨by decide,
    (failures_collapse_to_500 ⟨true, none, true, false, "/srv/app/src",
       "/srv/app", fun _ => [], fun _ => []⟩ 0
       ⟨JSValue.str ("hi"), JSValue.undefined⟩ (by decide)).2.1
      (by decide) rfl rfl⟩,
   (failures_collapse_to_500 ⟨false, some (200, 200), true, false,
      "/srv/app/src", "/srv/app", fun _ => [], fun _ => []⟩ 0
      ⟨JSValue.str ("hi"), JSValue.undefined⟩ (by decide)).1 rfl,
   (failures_collapse_to_500 ⟨true, some (200, 200), false, false,
      "/srv/app/src", "/srv/app", fun _ => [], fun _ => []⟩ 0
      ⟨JSValue.str ("hi"), JSValue.undefined⟩ (by decide)).2.2 rfl⟩

/-- Auxiliary: a render event of the logo path carries the call's width,
data and the fixed options. -/
lemma renderQR_mem_withLogo (env : Env) (d : JSValue) (ci : String)
    (w width : ℚ) (dd : JSValue) (opts : QROptions)
    (h : Event.renderQR width dd opts ∈ (generateQRCodeWithLogo env d ci w).1) :
    width = w ∧ dd = d ∧ opts = ⟨"H", 1, "#000000", "#ffffff"⟩ := by
  rcases hq : env.qrEncodeOk <;> rcases hl : env.logo with _ | ⟨lw, lh⟩ <;>
    simp [generateQRCodeWithLogo, hq, hl] at h <;> tauto

/-- Auxiliary: a render event of the logo-less path carries the call's
width, data and the fixed options. -/
lemma renderQR_mem_withoutLogo (env : Env) (d : JSValue)
    (w width : ℚ) (dd : JSValue) (opts : QROptions)
    (h : Event.renderQR width dd opts ∈ (generateQRCodeWithoutLogo env d w).1) :
    width = w ∧ dd = d ∧ opts = ⟨"H", 1, "#000000", "#ffffff"⟩ := by
  rcases hq : env.qrEncodeOk <;>
    simp [generateQRCodeWithoutLogo, hq] at h <;> tauto

/-- C6: both rendering paths start with a render invocation configured
with error correction H, margin 1, dark #000000 and light #ffffff, and
every render invocation the endpoint can perform uses width 400 with
those options. -/
theorem render_config_fixed :
    (∀ (env : Env) (d : JSValue) (ci : String) (width : ℚ), ∃ rest,
      (generateQRCodeWithLogo env d ci width).1 =
        Event.renderQR width d ⟨"H", 1, "#000000", "#ffffff"⟩ :: rest) ∧
    (∀ (env : Env) (d : JSValue) (width : ℚ), ∃ rest,
      (generateQRCodeWithoutLogo env d width).1 =
        Event.renderQR width d ⟨"H", 1, "#000000", "#ffffff"⟩ :: rest) ∧
    (∀ (env : Env) (now : ℕ) (req : RequestBody) (width : ℚ)
       (d : JSValue) (opts : QROptions),
      Event.renderQR width d opts ∈ handleGenerateQR env now req →
        width = 400 ∧ opts = ⟨"H", 1, "#000000", "#ffffff"⟩) := by
  refine ⟨?_, ?_, ?_⟩
  · intro env d ci width
    rcases hq : env.qrEncodeOk <;> rcases hl : env.logo with _ | ⟨lw, lh⟩ <;>
      simp [generateQRCodeWithLogo, hq, hl]
  · intro env d width
    rcases hq : env.qrEncodeOk <;> simp [generateQRCodeWithoutLogo, hq]
  · intro env now req width d opts h
    unfold handleGenerateQR at h
    dsimp only at h
    rcases ht : req.data.truthy
    · rw [ht] at h
      simp at h
    · rw [ht] at h
      simp only [Bool.true_eq_false, if_false] at h
      rcases he : (if req.enableLogo = JSValue.undefined then JSValue.bool true
          else req.enableLogo).truthy <;> rw [he] at h
      · have hr : Event.renderQR width d opts ∈
            (generateQRCodeWithoutLogo env req.data 400).1 →
            width = 400 ∧ opts = ⟨"H", 1, "#000000", "#ffffff"⟩ := fun hh =>
          ⟨(renderQR_mem_withoutLogo env req.data 400 width d opts hh).1,
           (renderQR_mem_withoutLogo env req.data 400 width d opts hh).2.2⟩
        simp only [Bool.false_eq_true, if_false] at h
        rcases h2 : (generateQRCodeWithoutLogo env req.data 400).2 with _ | bytes <;>
          rw [h2] at h
        · rw [List.mem_append] at h
          rcases h with h | h
          · exact hr h
          · simp at h
        · rcases hwk : env.writeOk <;> rw [hwk] at h <;>
            simp only [Bool.false_eq_true, if_false, if_true] at h <;>
            rw [List.mem_append, List.mem_append] at h <;>
            rcases h with (h | h) | h <;>
            first
              | exact hr h
              | (rcases hx : env.outputDirExists <;> rw [hx] at h <;> simp at h)
              | simp at h
      · have hr : Event.renderQR width d opts ∈
            (generateQRCodeWithLogo env req.data logoPath 400).1 →
            width = 400 ∧ opts = ⟨"H", 1, "#000000", "#ffffff"⟩ := fun hh =>
          ⟨(renderQR_mem_withLogo env req.data logoPath 400 width d opts hh).1,
           (renderQR_mem_withLogo env req.data logoPath 400 width d opts hh).2.2⟩
        simp only [if_true] at h
        rcases h2 : (generateQRCodeWithLogo env req.data logoPath 400).2 with _ | bytes <;>
          rw [h2] at h
        · rw [List.mem_append] at h
          rcases h with h | h
          · exact hr h
          · simp at h
        · rcases hwk : env.writeOk <;> rw [hwk] at h <;>
            simp only [Bool.false_eq_true, if_false, if_true] at h <;>
            rw [List.mem_append, List.mem_append] at h <;>
            rcases h with (h | h) | h <;>
            first
              | exact hr h
              | (rcases hx : env.outputDirExists <;> rw [hx] at h <;> simp at h)
              | simp at h

/-- Witness for C6: the render event of a concrete successful request is
the width 400 invocation with the fixed options. -/
theorem render_config_fixed_witness :
    Event.renderQR 400 (JSValue.str ("hi")) ⟨"H", 1, "#000000", "#ffffff"⟩ ∈
      handleGenerateQR sampleEnv 0 ⟨JSValue.str ("hi"), JSValue.bool false⟩ ∧
    ((400 : ℚ) = 400 ∧
      (⟨"H", 1, "#000000", "#ffffff"⟩ : QROptions) =
        ⟨"H", 1, "#000000", "#ffffff"⟩) := by
  have hm : Event.renderQR 400 (JSValue.str ("hi")) ⟨"H", 1, "#000000", "#ffffff"⟩ ∈
      handleGenerateQR sampleEnv 0 ⟨JSValue.str ("hi"), JSValue.bool false⟩ := by
    decide
  exact ⟨hm, render_config_fixed.2.2 sampleEnv 0
    ⟨JSValue.str ("hi"), JSValue.bool false⟩ 400 (JSValue.str ("hi"))
    ⟨"H", 1, "#000000", "#ffffff"⟩ hm⟩

/-- C7 counterexample: with the server source file in /srv/app/src and the
process working directory /srv/app, the successful request at clock
reading 5 writes qr-code-5.png into /srv/app/src/output, the output
directory next to the source file, and performs no write into
/srv/app/output, the output directory relative to the process working
directory that the claim names. -/
theorem output_dir_not_cwd :
    handleGenerateQR sampleEnv 5 ⟨JSValue.str ("hello"), JSValue.bool false⟩ =
      [Event.renderQR 400 (JSValue.str ("hello")) ⟨"H", 1, "#000000", "#ffffff"⟩,
       Event.mkdir ("/srv/app/src/output"),
       Event.write ("/srv/app/src/output") ("qr-code-5.png"),
       Event.respondPng [137, 80, 78, 71]] ∧
    sampleEnv.cwd ++ "/output" = "/srv/app/output" ∧
    Event.write ("/srv/app/output") ("qr-code-5.png") ∉
      handleGenerateQR sampleEnv 5 ⟨JSValue.str ("hello"), JSValue.bool false⟩ :=
  ⟨by decide, by decide, by decide⟩

/-- C7 amended: every successfully generated image is written to the
output directory next to the server source file, path.join(__dirname,
"output") rather than the process working directory, with filename
qr-code-<unixMillis>.png; the directory is created first when it does not
exist, and the write event precedes the PNG response, which ends the
trace. -/
theorem write_before_response (env : Env) (now : ℕ) (req : RequestBody)
    (hd : req.data.truthy = true) (hq : env.qrEncodeOk = true)
    (hwk : env.writeOk = true)
    (hlogo : (if req.enableLogo = JSValue.undefined then JSValue.bool true
        else req.enableLogo).truthy = true → env.logo.isSome = true) :
    ∃ pre bytes,
      handleGenerateQR env now req =
        pre ++ (if env.outputDirExists then ([] : List Event)
                else [Event.mkdir (env.dirname ++ "/output")]) ++
          [Event.write (env.dirname ++ "/output")
             ("qr-code-" ++ toString now ++ ".png"),
           Event.respondPng bytes] := by
  unfold handleGenerateQR
  dsimp only
  rw [hd]
  simp only [Bool.true_eq_false, if_false]
  rcases he : (if req.enableLogo = JSValue.undefined then JSValue.bool true
      else req.enableLogo).truthy
  · refine ⟨(generateQRCodeWithoutLogo env req.data 400).1,
      env.encodeNoLogo req.data, ?_⟩
    simp [generateQRCodeWithoutLogo, hq, hwk]
  · rcases hl : env.logo with _ | ⟨lw, lh⟩
    · rw [hl] at hlogo
      exact absurd (hlogo he) (by decide)
    · refine ⟨(generateQRCodeWithLogo env req.data logoPath 400).1,
        env.encodeWithLogo req.data, ?_⟩
      simp [generateQRCodeWithLogo, hq, hl, hwk]

/-- Witness for C7 amended at clock reading 7 with the default logo. -/
theorem write_before_response_witness :
    (JSValue.str ("hi")).truthy = true ∧ sampleEnv.qrEncodeOk = true ∧
    sampleEnv.writeOk = true ∧
    ∃ pre bytes,
      handleGenerateQR sampleEnv 7 ⟨JSValue.str ("hi"), JSValue.undefined⟩ =
        pre ++ (if sampleEnv.outputDirExists then ([] : List Event)
                else [Event.mkdir (sampleEnv.dirname ++ "/output")]) ++
          [Event.write (sampleEnv.dirname ++ "/output")
             ("qr-code-" ++ toString 7 ++ ".png"),
           Event.respondPng bytes] :=
  ⟨by decide, rfl, rfl,
   write_before_response sampleEnv 7 ⟨JSValue.str ("hi"), JSValue.undefined⟩
     (by decide) rfl rfl (fun _ => rfl)⟩

/-- C8: generation is deterministic, and the clock reading influences
nothing but the name of the written file: for a fixed request and fixed
deterministic environment (same logo asset, same encoders), the traces of
two runs at different clock readings agree event for event once the
written filename is scrubbed. In particular the render invocation, the
drawn logo geometry, the written bytes and the HTTP response are
identical between the two runs. -/
theorem trace_clock_invariant (env : Env) (n1 n2 : ℕ) (req : RequestBody) :
    (handleGenerateQR env n1 req).map scrubFileName =
      (handleGenerateQR env n2 req).map scrubFileName := by
  unfold handleGenerateQR
  dsimp only
  rcases ht : req.data.truthy
  · rfl
  · simp only [Bool.true_eq_false, if_false]
    rcases h2 : (if (if req.enableLogo = JSValue.undefined then JSValue.bool true
        else req.enableLogo).truthy = true then
          generateQRCodeWithLogo env req.data logoPath 400
        else generateQRCodeWithoutLogo env req.data 400).2 with _ | bytes
    · rfl
    · rcases hwk : env.writeOk
      · rfl
      · simp [scrubFileName]

end QRGen
